import Mathlib

/-!
Verification development for the mago-tag-monitor value-extraction core.

The JavaScript source is shallowly embedded:
* `getLastCompleteHour` (src/extractValueFromCsv.js, part_003) is embedded with the
  clock reading (`now.getHours()`, `now.getMinutes()`) passed as parameters.
* `parseCsvAndExtractValue` (src/extractValueFromCsv.js, lines 33-105) is embedded
  as a pure function from the CSV text and the last-complete-hour to a result value;
  the `console.log` of the "using most recent Empacotamento value" branch is made
  observable as a distinct `okFallback` constructor, and the two `throw` sites are
  the two error constructors.
* `extractEmpacotamentoFromJson` (unnamed/part_003, lines 209-711) is embedded for
  payloads of the `{Items:[{Tag,Timestamp,Value:{Value},Good}]}` shape: for such a
  payload only the Items branch (lines 224-329) and the Items part of the
  "structure 7" fallback (lines 657-685) can fire, so the embedding is their
  sequential composition.
* `assessCondition` (src/assessCondition.js) is embedded directly; the formatted
  `message` string (a pt-BR locale rendering of the number) is not modelled.

JavaScript values are modelled as follows: numbers that the code compares and
returns are rationals (`ℚ`); `NaN` results of numeric conversion are folded into
`Option.none` (every filter in the source rejects `NaN`, by `isNaN` checks or by
range comparisons that are false on `NaN`, so this is behaviour-preserving);
`Date` values are an integer timeline value plus the `getHours()` reading;
`Array.prototype.sort` (stable per ECMAScript 2019) is modelled by a stable
insertion sort with the source's comparator — for a consistent comparator the
stable sorted order is unique, so the choice of stable algorithm is immaterial.
When the comparator reads an invalid date it returns `NaN` and the engine order
is unspecified; this is determinised as "invalid timestamps sort last", and no
theorem below depends on the order of such elements beyond membership.
-/

namespace MagoTag

/-! ### JavaScript string primitives -/

/-- The whitespace class used by the source's regexes (`\s`) and `String.trim`. -/
def isJsSpace (c : Char) : Bool :=
  c == ' ' || c == '\t' || c == '\n' || c == '\r' || c == '\x0b' || c == '\x0c'

/-- ASCII lowercasing, modelling `String.prototype.toLowerCase` on the ASCII
tags appearing in the payloads. -/
def asciiLower (c : Char) : Char :=
  if 'A' ≤ c && c ≤ 'Z' then Char.ofNat (c.toNat + 32) else c

/-- Does `needle` occur at the start of `hay`? -/
def matchesAt (needle hay : List Char) : Bool :=
  match needle, hay with
  | [], _ => true
  | _ :: _, [] => false
  | n :: ns, h :: hs => n == h && matchesAt ns hs

/-- Does `needle` occur anywhere in `hay`? (JS `String.prototype.includes`.) -/
def hasSub (needle : List Char) : List Char → Bool
  | [] => needle.isEmpty
  | c :: rest => matchesAt needle (c :: rest) || hasSub needle rest

/-- `s.toLowerCase().includes(needle)` for an already-lowercase `needle`. -/
def containsLower (s : String) (needle : String) : Bool :=
  hasSub needle.data (s.data.map asciiLower)

/-- JS `String.prototype.trim` (both ends). -/
def trimChars (s : List Char) : List Char :=
  ((s.dropWhile isJsSpace).reverse.dropWhile isJsSpace).reverse

/-- JS `split('\n')`. -/
def splitNl : List Char → List (List Char)
  | [] => [[]]
  | c :: rest =>
    if c == '\n' then [] :: splitNl rest
    else
      match splitNl rest with
      | g :: gs => (c :: g) :: gs
      | [] => [[c]]

/-- Fold a digit string into a natural number (`parseInt(_, 10)` on an
all-digit capture). -/
def digitsToNat (ds : List Char) : Nat :=
  ds.foldl (fun n c => n * 10 + (c.toNat - '0'.toNat)) 0

/-! ### Series classification

The Items filter of `extractEmpacotamentoFromJson` (unnamed/part_003, lines
235-245) classifies a tag by case-insensitive substring match: a tag containing
`previsao` is treated as the forecast series and excluded; otherwise a tag
containing `empacotamento` is the actual series; anything else is ignored.
Note that the source checks only `previsao` here, not `estimativa`. -/

inductive SeriesKind
  | actual
  | forecast
  | unknown
deriving DecidableEq, Repr

/-- The tag classification implemented by the Items filter of
`extractEmpacotamentoFromJson` (unnamed/part_003, lines 235-245). -/
def classifyTag (tag : String) : SeriesKind :=
  if containsLower tag "previsao" then .forecast
  else if containsLower tag "empacotamento" then .actual
  else .unknown

/-! ### TimeBucket -/

/-- `getLastCompleteHour` (src/extractValueFromCsv.js lines 14-26, duplicated in
unnamed/part_003 lines 175-187), with the clock reading passed in: `currentHour`
is `now.getHours()` and `currentMinute` is `now.getMinutes()`. -/
def getLastCompleteHour (currentHour currentMinute : Int) : Int :=
  if currentMinute = 0 then currentHour else currentHour - 1

/-! ### assessCondition (src/assessCondition.js) -/

structure Thresholds where
  criticoPut : ℚ
  alertaPut : ℚ
  alertaCall : ℚ
  criticoCall : ℚ
deriving DecidableEq, Repr

/-- The assessment record returned by `assessCondition`; the formatted
`message` field of the source is not modelled. -/
structure Assessment where
  status : String
  severity : String
  currentValue : ℚ
deriving DecidableEq, Repr

/-- `assessCondition` (src/assessCondition.js lines 7-47). -/
def assessCondition (currentValue : ℚ) (t : Thresholds) : Assessment :=
  if currentValue ≥ t.criticoPut then
    { status := "Crítico PUT", severity := "critical", currentValue := currentValue }
  else if currentValue ≥ t.alertaPut then
    { status := "Alerta PUT", severity := "warning", currentValue := currentValue }
  else if currentValue > t.alertaCall ∧ currentValue < t.alertaPut then
    { status := "Neutro", severity := "neutral", currentValue := currentValue }
  else if currentValue ≥ t.criticoCall ∧ currentValue ≤ t.alertaCall then
    { status := "Alerta CALL", severity := "warning", currentValue := currentValue }
  else
    { status := "Crítico CALL", severity := "critical", currentValue := currentValue }

/-! ### CSV line splitting

`parseCsvAndExtractValue` splits each data line with the global regex match
`line.match(/(".*?"|[^,]+)(?=\s*,|\s*$)/g)`.  The model below implements the
backtracking semantics of that pattern: at each candidate start position the
quoted alternative is tried first, with the non-greedy `.*?` extended to the
first closing quote whose position satisfies the lookahead `(?=\s*,|\s*$)`;
otherwise the greedy `[^,]+` alternative matches a maximal run of non-comma
characters (after which the lookahead always holds, since the run ends at a
comma or at the end of the line). -/

/-- The lookahead `(?=\s*,|\s*$)`: skip whitespace, then a comma or the end. -/
def lookOk : List Char → Bool
  | [] => true
  | c :: rest => if isJsSpace c then lookOk rest else c == ','

/-- After an opening quote, extend the non-greedy `.*?` to the first closing
quote whose continuation satisfies the lookahead; returns the consumed content
and the remainder after the closing quote. -/
def quotedScan (acc : List Char) : List Char → Option (List Char × List Char)
  | [] => none
  | c :: rest =>
    if c == '"' then
      if lookOk rest then some (acc.reverse, rest)
      else quotedScan (c :: acc) rest
    else quotedScan (c :: acc) rest

/-- Maximal run of non-comma characters (`[^,]+`, greedy). -/
def spanNonComma : List Char → List Char × List Char
  | [] => ([], [])
  | c :: rest =>
    if c == ',' then ([], c :: rest)
    else
      let (tok, rem) := spanNonComma rest
      (c :: tok, rem)

/-- Global scan for the field pattern; a comma is the only character at which
no match can start.  The fuel argument (instantiated with the length of the
line) only discharges termination: every step consumes at least one character. -/
def splitFieldsAux : Nat → List Char → List (List Char)
  | 0, _ => []
  | _, [] => []
  | fuel + 1, c :: rest =>
    if c == ',' then splitFieldsAux fuel rest
    else if c == '"' then
      match quotedScan [] rest with
      | some (content, rem) => ('"' :: (content ++ ['"'])) :: splitFieldsAux fuel rem
      | none =>
        let (tok, rem) := spanNonComma (c :: rest)
        tok :: splitFieldsAux fuel rem
    else
      let (tok, rem) := spanNonComma (c :: rest)
      tok :: splitFieldsAux fuel rem

/-- All matches of `(".*?"|[^,]+)(?=\s*,|\s*$)` in the line. -/
def splitFields (line : List Char) : List (List Char) :=
  splitFieldsAux line.length line

/-- `field.replace(/^"|"$/g, '').trim()`: remove one leading and one trailing
double quote class match, then trim. -/
def stripQuotesTrim (s : List Char) : List Char :=
  let s1 := match s with
    | '"' :: r => r
    | other => other
  let s2 := match s1.reverse with
    | '"' :: r => r.reverse
    | _ => s1
  trimChars s2

/-! ### Date parsing

The source matches `/(\d{2})\/(\d{2})\/(\d{4}),\s*(\d{2}):(\d{2}):(\d{2})/`
against the date field and then builds
`new Date(`${year}-${month}-${day}T${hour}:${minute}:${second}`)`.
That ISO-like string is interpreted in local time; `getTime()` of the resulting
date is modelled by a local-seconds timeline value (days since the civil epoch
times 86400 plus the time of day), which is a strictly monotone image of the
real `getTime()` for a fixed zone and therefore order-faithful for the
comparator `b.date - a.date`.  Invalid component combinations (month out of
1..12, day out of range for the month, time of day out of range, with `24:00:00`
accepted as the following midnight exactly as the ISO parser does) give an
Invalid Date, i.e. `none`. -/

structure DateCapture where
  day : Nat
  month : Nat
  year : Nat
  hour : Nat
  minute : Nat
  second : Nat
deriving DecidableEq, Repr

/-- Try the date pattern anchored at the current position. -/
def matchDateAt (s : List Char) : Option DateCapture :=
  match s with
  | d1 :: d2 :: '/' :: m1 :: m2 :: '/' :: y1 :: y2 :: y3 :: y4 :: ',' :: rest =>
    if d1.isDigit && d2.isDigit && m1.isDigit && m2.isDigit &&
        y1.isDigit && y2.isDigit && y3.isDigit && y4.isDigit then
      match (rest.dropWhile isJsSpace) with
      | h1 :: h2 :: ':' :: n1 :: n2 :: ':' :: s1 :: s2 :: _ =>
        if h1.isDigit && h2.isDigit && n1.isDigit && n2.isDigit &&
            s1.isDigit && s2.isDigit then
          some { day := digitsToNat [d1, d2], month := digitsToNat [m1, m2],
                 year := digitsToNat [y1, y2, y3, y4],
                 hour := digitsToNat [h1, h2], minute := digitsToNat [n1, n2],
                 second := digitsToNat [s1, s2] }
        else none
      | _ => none
    else none
  | _ => none

/-- Leftmost match of the date pattern (unanchored regex search). -/
def findDateMatch : List Char → Option DateCapture
  | [] => none
  | c :: rest =>
    match matchDateAt (c :: rest) with
    | some r => some r
    | none => findDateMatch rest

def isLeapYear (y : Nat) : Bool :=
  (y % 4 == 0 && y % 100 != 0) || y % 400 == 0

def daysInMonth (y m : Nat) : Nat :=
  if m = 2 then (if isLeapYear y then 29 else 28)
  else if m = 4 ∨ m = 6 ∨ m = 9 ∨ m = 11 then 30
  else 31

/-- Days from 1970-01-01 to civil date y-m-d (proleptic Gregorian). -/
def daysFromCivil (y m d : Nat) : Int :=
  let yAdj : Int := if m ≤ 2 then (y : Int) - 1 else (y : Int)
  let era : Int := (if 0 ≤ yAdj then yAdj else yAdj - 399) / 400
  let yoe : Int := yAdj - era * 400
  let mp : Int := ((m : Int) + 9) % 12
  let doy : Int := (153 * mp + 2) / 5 + (d : Int) - 1
  let doe : Int := yoe * 365 + yoe / 4 - yoe / 100 + doy
  era * 146097 + doe - 719468

/-- `new Date("YYYY-MM-DDTHH:MM:SS")`: `none` for Invalid Date, otherwise the
local-seconds timeline value. -/
def dateFromYMDHMS (y m d h mi s : Nat) : Option Int :=
  if 1 ≤ m ∧ m ≤ 12 ∧ 1 ≤ d ∧ d ≤ daysInMonth y m ∧
      ((h ≤ 23 ∧ mi ≤ 59 ∧ s ≤ 59) ∨ (h = 24 ∧ mi = 0 ∧ s = 0)) then
    some (daysFromCivil y m d * 86400 + (h : Int) * 3600 + (mi : Int) * 60 + (s : Int))
  else none

/-! ### parseFloat -/

/-- JS `parseFloat` on a decimal literal: optional leading whitespace and sign,
a longest prefix of the form `digits [. digits] [e|E [sign] digits]`, `none`
(`NaN`) when no digits are found.  The special `Infinity` literal, which cannot
occur in a numeric table cell, is not modelled. -/
def parseFloatQ (s : List Char) : Option ℚ :=
  let s0 := s.dropWhile isJsSpace
  let (sign, s1) : Int × List Char :=
    match s0 with
    | '-' :: r => (-1, r)
    | '+' :: r => (1, r)
    | _ => (1, s0)
  let intDigits := s1.takeWhile Char.isDigit
  let s2 := s1.dropWhile Char.isDigit
  let (fracDigits, s3) : List Char × List Char :=
    match s2 with
    | '.' :: r => (r.takeWhile Char.isDigit, r.dropWhile Char.isDigit)
    | _ => ([], s2)
  if intDigits.isEmpty ∧ fracDigits.isEmpty then none
  else
    let mant : Int := sign * (digitsToNat (intDigits ++ fracDigits) : Int)
    let expPart : Int :=
      match s3 with
      | c :: r =>
        if c == 'e' || c == 'E' then
          let (es, r2) : Int × List Char :=
            match r with
            | '-' :: rr => (-1, rr)
            | '+' :: rr => (1, rr)
            | _ => (1, r)
          let eds := r2.takeWhile Char.isDigit
          if eds.isEmpty then 0 else es * (digitsToNat eds : Int)
        else 0
      | [] => 0
    let e10 : Int := expPart - (fracDigits.length : Int)
    if 0 ≤ e10 then some (mkRat (mant * (10 : Int) ^ e10.toNat) 1)
    else some (mkRat mant ((10 : Nat) ^ (-e10).toNat))

/-! ### CSV row parsing and value selection
(`parseCsvAndExtractValue`, src/extractValueFromCsv.js lines 33-105) -/

/-- A parsed Empacotamento row (`empacotamentoRows.push({date, hour, value})`). -/
structure CsvRow where
  date : Int
  hour : Nat
  value : ℚ
deriving DecidableEq, Repr

/-- One iteration of the row loop (lines 46-75): split the line into fields,
keep it only when there are at least three fields, the label is exactly
`Empacotamento`, the date matches and parses, and the value parses. -/
def csvLineToRow (line : List Char) : Option CsvRow :=
  match splitFields line with
  | f0 :: f1 :: f2 :: _ =>
    let informacao := stripQuotesTrim f0
    let dataStr := stripQuotesTrim f1
    let valorStr := stripQuotesTrim f2
    if informacao = "Empacotamento".data then
      match findDateMatch dataStr with
      | none => none
      | some cap =>
        match dateFromYMDHMS cap.year cap.month cap.day cap.hour cap.minute cap.second with
        | none => none
        | some d =>
          match parseFloatQ valorStr with
          | none => none
          | some v => some { date := d, hour := cap.hour, value := v }
    else none
  | _ => none

/-- `csvContent.trim().split('\n')`. -/
def csvLines (content : String) : List (List Char) :=
  splitNl (trimChars content.data)

/-- The `empacotamentoRows` list: every data line (header removed by
`lines.slice(1)`) that parses; malformed lines are dropped by the `continue`
statements. -/
def csvRows (content : String) : List CsvRow :=
  ((csvLines content).drop 1).filterMap csvLineToRow

/-- The observable outcomes of `parseCsvAndExtractValue`: the two `throw`
sites, a normal return, and a return from the fallback branch (which announces
itself on the console: "No rows found for last complete hour, using most recent
Empacotamento value"). -/
inductive CsvResult
  | errEmptyCsv
  | errNoEmpacotamento
  | ok (value : ℚ)
  | okFallback (value : ℚ)
deriving DecidableEq, Repr

/-- The comparator `(a, b) => b.date - a.date`: `a` may precede `b` exactly when
the comparator is not positive. -/
def rowRel (a b : CsvRow) : Prop := b.date ≤ a.date

instance : DecidableRel rowRel := fun a b => Int.decLe _ _

instance : IsTotal CsvRow rowRel := ⟨fun a b => le_total b.date a.date⟩

instance : IsTrans CsvRow rowRel := ⟨fun _ _ _ h1 h2 => le_trans h2 h1⟩

/-- `rows.sort((a, b) => b.date - a.date)`, as a stable descending sort. -/
def sortRowsDesc (l : List CsvRow) : List CsvRow :=
  List.insertionSort rowRel l

/-- The selection step (lines 84-104) on the parsed `empacotamentoRows`: filter
to `row.hour <= lastCompleteHour`, sort descending and take the head; if that
filter is empty, fall back to the most recent row overall.  The final arm is
unreachable because the caller has checked `empacotamentoRows.length === 0`. -/
def selectFromRows (rows : List CsvRow) (lastCompleteHour : Int) : CsvResult :=
  match sortRowsDesc (rows.filter fun r => decide ((r.hour : Int) ≤ lastCompleteHour)) with
  | r :: _ => .ok r.value
  | [] =>
    match sortRowsDesc rows with
    | m :: _ => .okFallback m.value
    | [] => .errNoEmpacotamento

/-- `parseCsvAndExtractValue` (lines 33-105), with the clock reading
`getLastCompleteHour()` passed in as `lastCompleteHour`. -/
def parseCsvAndExtractValue (csvContent : String) (lastCompleteHour : Int) : CsvResult :=
  if (csvLines csvContent).length < 2 then .errEmptyCsv
  else if (csvRows csvContent).isEmpty then .errNoEmpacotamento
  else selectFromRows (csvRows csvContent) lastCompleteHour

/-! ### JSON Items extraction
(`extractEmpacotamentoFromJson`, unnamed/part_003, restricted to payloads of
shape `{Items: [...]}` — for such a payload, of the "structure 1..7" chain only
the Items branch (lines 224-329) and the Items part of structure 7 (lines
657-685) can fire: the payload is not an array, has no `data`, `series`,
`empacotamento` or `Estimativa` member, and its key paths never contain the
substring `empacotamento`, so `findNumericValuesFromFields` finds nothing.) -/

/-- The `Timestamp` of an item as the source consumes it: absent or empty
(falsy), present but yielding an Invalid Date, or parsed, carrying the
`getTime()` timeline value and the `getHours()` reading. -/
inductive JsTS
  | missing
  | invalid
  | valid (ms : Int) (hour : Int)
deriving DecidableEq, Repr

/-- An element of the `Items` array.  `Tag` is `none` when absent; `Value` is
`none` when absent/null, `some none` when present without a numeric `Value`
member (including `NaN`, which every filter of the source rejects), and
`some (some q)` when `Value.Value` is the finite number `q`.  `Good` is `none`
when absent. -/
structure JsItem where
  Tag : Option String
  Timestamp : JsTS
  Value : Option (Option ℚ)
  Good : Option Bool
deriving DecidableEq, Repr

/-- Truthiness of `item.Tag` (the empty string is falsy). -/
def tagTruthy : Option String → Bool
  | none => false
  | some t => !(t == "")

/-- Truthiness of `item.Timestamp`. -/
def tsTruthy : JsTS → Bool
  | .missing => false
  | _ => true

/-- Truthiness of `item.Value` (an object is always truthy). -/
def valPresent : Option (Option ℚ) → Bool
  | none => false
  | some _ => true

/-- `typeof item.Value.Value === 'number' ? item.Value.Value : null`. -/
def valNum (i : JsItem) : Option ℚ :=
  match i.Value with
  | some (some q) => some q
  | _ => none

/-- The numeric value the return sites read (`selected.Value.Value`); every
return site is guarded by a filter that ensures `valNum` is `some`. -/
def itemVal (i : JsItem) : ℚ :=
  (valNum i).getD 0

/-- `!item.Tag || !item.Timestamp || !item.Value` (negated). -/
def hasTagTsVal (i : JsItem) : Bool :=
  tagTruthy i.Tag && tsTruthy i.Timestamp && valPresent i.Value

/-- The Items filter of lines 235-245: presence of the three members, not
`previsao`, and `empacotamento` — i.e. classification as the actual series. -/
def isEmpacotamentoItem (i : JsItem) : Bool :=
  hasTagTsVal i &&
    (match i.Tag with
     | some t => decide (classifyTag t = .actual)
     | none => false)

/-- The `validItems` filter of lines 251-266 (also the `validMalha` filter of
lines 311-318, which is the same test written with un-negated conjunctions): a
parsable timestamp, a truthy numeric value inside [50000000, 80000000], and an
hour at or before the target.  `¬(v < 50000000)` is written `50000000 ≤ v` and
`¬(hour > lch)` is written `hour ≤ lch`. -/
def isValidTargetItem (lch : Int) (i : JsItem) : Bool :=
  match i.Timestamp with
  | .valid _ hour =>
    (match valNum i with
     | some v =>
       decide (v ≠ 0) && decide (50000000 ≤ v) && decide (v ≤ 80000000) &&
         decide (hour ≤ lch)
     | none => false)
  | _ => false

/-- The fallback filter of lines 287-290: a truthy numeric value in range
(no timestamp requirement). -/
def isInRangeItem (i : JsItem) : Bool :=
  match valNum i with
  | some v => decide (v ≠ 0) && decide (50000000 ≤ v) && decide (v ≤ 80000000)
  | none => false

/-- The structure-7 Items filter of lines 658-665: truthy tag, a numeric
`Value.Value`, no `previsao` in the tag, and value in range. -/
def isS7Item (i : JsItem) : Bool :=
  tagTruthy i.Tag &&
    (match valNum i with
     | some v =>
       (match i.Tag with
        | some t => !containsLower t "previsao"
        | none => false) && decide (50000000 ≤ v) && decide (v ≤ 80000000)
     | none => false)

/-- The comparator `(a, b) => new Date(b.Timestamp) - new Date(a.Timestamp)`:
`a` may precede `b` exactly when the comparator is not positive; when either
date is invalid the comparator is `NaN` (not positive), determinised here as
letting valid timestamps precede invalid ones. -/
def tsLe (x y : JsTS) : Bool :=
  match x, y with
  | .valid a _, .valid b _ => decide (b ≤ a)
  | .valid _ _, _ => true
  | _, .valid _ _ => false
  | _, _ => true

def itemLe (a b : JsItem) : Bool := tsLe a.Timestamp b.Timestamp

def itemRel (a b : JsItem) : Prop := itemLe a b = true

instance : DecidableRel itemRel := fun _ _ => instDecidableEqBool _ _

instance : IsTotal JsItem itemRel :=
  ⟨fun a b => by
    unfold itemRel itemLe
    generalize a.Timestamp = x
    generalize b.Timestamp = y
    cases x <;> cases y <;> simp [tsLe] <;> omega⟩

instance : IsTrans JsItem itemRel :=
  ⟨fun a b c h1 h2 => by
    unfold itemRel itemLe at h1 h2 ⊢
    revert h1 h2
    generalize a.Timestamp = x
    generalize b.Timestamp = y
    generalize c.Timestamp = z
    intro h1 h2
    cases x <;> cases y <;> cases z <;> simp_all [tsLe] <;> omega⟩

/-- `items.sort((a, b) => new Date(b.Timestamp) - new Date(a.Timestamp))`. -/
def sortItemsDesc (l : List JsItem) : List JsItem :=
  List.insertionSort itemRel l

/-- The Empacotamento candidates (lines 235-245) of an Items payload. -/
def empacotamentoItems (items : List JsItem) : List JsItem :=
  items.filter isEmpacotamentoItem

/-- The candidates that survive the target-hour filter (lines 251-266). -/
def validCandidates (items : List JsItem) (lch : Int) : List JsItem :=
  (empacotamentoItems items).filter (isValidTargetItem lch)

/-- Lines 249-300: when Empacotamento candidates exist, sort the target-hour
candidates by timestamp descending, prefer `Good === true` items, and return
the head's value; when the target-hour filter is empty, return the value of
the most recent in-range candidate; when that is also empty, fall through. -/
def itemsTargetSelect (items : List JsItem) (lch : Int) : Option ℚ :=
  let empItems := empacotamentoItems items
  if empItems.isEmpty then none
  else
    match sortItemsDesc (empItems.filter (isValidTargetItem lch)) with
    | v :: vs =>
      match (v :: vs).filter (fun i => i.Good == some true) with
      | g :: _ => some (itemVal g)
      | [] => some (itemVal v)
    | [] =>
      match sortItemsDesc (empItems.filter isInRangeItem) with
      | m :: _ => some (itemVal m)
      | [] => none

/-- Lines 303-328: the `MALHA-INT-1MIN` fallback. -/
def malhaSelect (items : List JsItem) (lch : Int) : Option ℚ :=
  let malhaItems := items.filter fun i =>
    hasTagTsVal i && (i.Tag == some "MALHA-INT-1MIN") && (i.Good == some true)
  match sortItemsDesc (malhaItems.filter (isValidTargetItem lch)) with
  | m :: _ => some (itemVal m)
  | [] => none

/-- Lines 657-685: the structure-7 Items fallback on any non-`previsao` tag
with an in-range value; items from the target hour or earlier are preferred
when any exist. -/
def structure7Select (items : List JsItem) (lch : Int) : Option ℚ :=
  let nonPrevisaoItems := items.filter isS7Item
  let hourFiltered := nonPrevisaoItems.filter fun i =>
    match i.Timestamp with
    | .valid _ h => decide (h ≤ lch)
    | _ => false
  let itemsToUse := if hourFiltered.isEmpty then nonPrevisaoItems else hourFiltered
  match sortItemsDesc itemsToUse with
  | m :: _ => some (itemVal m)
  | [] => none

/-- `extractEmpacotamentoFromJson` on an Items payload (the sequential
composition of the three branches that can return for this shape; the final
`return null` is `none`).  `lch` is the `getLastCompleteHour()` reading. -/
def extractEmpacotamentoFromJson (items : List JsItem) (lch : Int) : Option ℚ :=
  match itemsTargetSelect items lch with
  | some v => some v
  | none =>
    match malhaSelect items lch with
    | some v => some v
    | none => structure7Select items lch

/-! ### Generic facts about the stable sort -/

theorem head_of_insertionSort {α : Type} (rel : α → α → Prop) [DecidableRel rel]
    [IsTotal α rel] [IsTrans α rel] {l : List α} {x : α} {t : List α}
    (h : List.insertionSort rel l = x :: t) :
    x ∈ l ∧ ∀ y ∈ l, rel x y := by
  have hperm : (x :: t).Perm l := h ▸ List.perm_insertionSort rel l
  have hsort : List.Sorted rel (x :: t) := h ▸ List.sorted_insertionSort rel l
  refine ⟨hperm.mem_iff.mp (List.mem_cons_self x t), ?_⟩
  intro y hy
  rcases List.mem_cons.mp (hperm.mem_iff.mpr hy) with rfl | hmem
  · exact (IsTotal.total (r := rel) y y).elim id id
  · exact (List.sorted_cons.mp hsort).1 y hmem

theorem head_of_filter_insertionSort {α : Type} (rel : α → α → Prop) [DecidableRel rel]
    [IsTotal α rel] [IsTrans α rel] {l : List α} (p : α → Bool) {x : α} {t : List α}
    (h : (List.insertionSort rel l).filter p = x :: t) :
    x ∈ l ∧ p x = true ∧ ∀ y ∈ l, p y = true → rel x y := by
  have hperm : (List.insertionSort rel l).Perm l := List.perm_insertionSort rel l
  have hsort : List.Sorted rel (List.insertionSort rel l) :=
    List.sorted_insertionSort rel l
  have hmemx : x ∈ (List.insertionSort rel l).filter p := h ▸ List.mem_cons_self x t
  have hxl : x ∈ l := hperm.mem_iff.mp ((List.filter_sublist _).subset hmemx)
  refine ⟨hxl, (List.mem_filter.mp hmemx).2, ?_⟩
  intro y hyl hpy
  have hyf : y ∈ (List.insertionSort rel l).filter p :=
    List.mem_filter.mpr ⟨hperm.mem_iff.mpr hyl, hpy⟩
  rw [h] at hyf
  rcases List.mem_cons.mp hyf with rfl | hmem
  · exact (IsTotal.total (r := rel) y y).elim id id
  · have hps : List.Sorted rel (x :: t) := h ▸ List.Pairwise.filter p hsort
    exact (List.sorted_cons.mp hps).1 y hmem

/-! ### Extraction facts for the item filters -/

theorem valNum_eq_some {i : JsItem} {v : ℚ} (h : valNum i = some v) :
    i.Value = some (some v) := by
  unfold valNum at h
  cases hV : i.Value with
  | none => rw [hV] at h; cases h
  | some iv =>
    cases iv with
    | none => rw [hV] at h; cases h
    | some q => rw [hV] at h; cases h; rfl

theorem itemVal_eq {i : JsItem} {v : ℚ} (h : valNum i = some v) : itemVal i = v := by
  unfold itemVal
  rw [h]
  rfl

theorem classifyTag_cases (t : String) :
    (classifyTag t = .forecast ↔ containsLower t "previsao" = true) ∧
    (classifyTag t = .actual ↔
      (containsLower t "previsao" = false ∧ containsLower t "empacotamento" = true)) ∧
    (classifyTag t = .unknown ↔
      (containsLower t "previsao" = false ∧ containsLower t "empacotamento" = false)) := by
  unfold classifyTag
  rcases hP : containsLower t "previsao" <;>
    rcases hE : containsLower t "empacotamento" <;> simp

theorem classifyTag_actual_no_previsao {t : String} (h : classifyTag t = .actual) :
    containsLower t "previsao" = false :=
  ((classifyTag_cases t).2.1.mp h).1

theorem isEmpacotamentoItem_facts {i : JsItem} (h : isEmpacotamentoItem i = true) :
    ∃ t, i.Tag = some t ∧ classifyTag t = .actual := by
  unfold isEmpacotamentoItem hasTagTsVal at h
  cases hT : i.Tag with
  | none => rw [hT] at h; simp [tagTruthy] at h
  | some t =>
    rw [hT] at h
    simp only [Bool.and_eq_true, decide_eq_true_eq] at h
    exact ⟨t, rfl, h.2⟩

theorem isValidTargetItem_facts {lch : Int} {i : JsItem}
    (h : isValidTargetItem lch i = true) :
    ∃ ms hr v, i.Timestamp = .valid ms hr ∧ valNum i = some v ∧
      v ≠ 0 ∧ 50000000 ≤ v ∧ v ≤ 80000000 ∧ hr ≤ lch := by
  unfold isValidTargetItem at h
  cases hT : i.Timestamp with
  | missing => rw [hT] at h; simp at h
  | invalid => rw [hT] at h; simp at h
  | valid ms hr =>
    rw [hT] at h
    cases hv : valNum i with
    | none => rw [hv] at h; simp at h
    | some v =>
      rw [hv] at h
      simp only [Bool.and_eq_true, decide_eq_true_eq] at h
      obtain ⟨⟨⟨h1, h2⟩, h3⟩, h4⟩ := h
      exact ⟨ms, hr, v, rfl, rfl, h1, h2, h3, h4⟩

theorem isInRangeItem_facts {i : JsItem} (h : isInRangeItem i = true) :
    ∃ v, valNum i = some v ∧ v ≠ 0 ∧ 50000000 ≤ v ∧ v ≤ 80000000 := by
  unfold isInRangeItem at h
  cases hv : valNum i with
  | none => rw [hv] at h; simp at h
  | some v =>
    rw [hv] at h
    simp only [Bool.and_eq_true, decide_eq_true_eq] at h
    obtain ⟨⟨h1, h2⟩, h3⟩ := h
    exact ⟨v, rfl, h1, h2, h3⟩

theorem isS7Item_facts {i : JsItem} (h : isS7Item i = true) :
    ∃ t v, i.Tag = some t ∧ containsLower t "previsao" = false ∧
      valNum i = some v ∧ 50000000 ≤ v ∧ v ≤ 80000000 := by
  unfold isS7Item tagTruthy at h
  cases hT : i.Tag with
  | none => rw [hT] at h; simp at h
  | some t =>
    rw [hT] at h
    cases hv : valNum i with
    | none => rw [hv] at h; simp at h
    | some v =>
      rw [hv] at h
      simp only [Bool.and_eq_true, Bool.not_eq_true', decide_eq_true_eq] at h
      obtain ⟨h0, ⟨hp, h2⟩, h3⟩ := h
      exact ⟨t, v, rfl, hp, rfl, h2, h3⟩

theorem mem_of_sortItemsDesc_eq {l : List JsItem} {x : JsItem} {t : List JsItem}
    (h : sortItemsDesc l = x :: t) : x ∈ l := by
  unfold sortItemsDesc at h
  exact (h ▸ List.perm_insertionSort itemRel l).mem_iff.mp (List.mem_cons_self x t)

theorem mem_sortItemsDesc {l : List JsItem} {x : JsItem} :
    x ∈ sortItemsDesc l ↔ x ∈ l :=
  (List.perm_insertionSort itemRel l).mem_iff

theorem sortItemsDesc_head_val {l : List JsItem} {v : ℚ}
    (h : (match sortItemsDesc l with
          | m :: _ => some (itemVal m)
          | [] => none) = some v) :
    ∃ m ∈ l, itemVal m = v := by
  cases hs : sortItemsDesc l with
  | nil => rw [hs] at h; cases h
  | cons m ms =>
    rw [hs] at h
    dsimp only at h
    injection h with h'
    exact ⟨m, mem_sortItemsDesc.mp (by rw [hs]; exact List.mem_cons_self m ms), h'⟩

theorem itemsTargetSelect_facts {items : List JsItem} {lch : Int} {v : ℚ}
    (h : itemsTargetSelect items lch = some v) :
    ∃ i ∈ items, isEmpacotamentoItem i = true ∧ valNum i = some v ∧
      50000000 ≤ v ∧ v ≤ 80000000 := by
  unfold itemsTargetSelect at h
  dsimp only at h
  by_cases hne : (empacotamentoItems items).isEmpty
  · rw [if_pos hne] at h; cases h
  · rw [if_neg hne] at h
    cases hs : sortItemsDesc ((empacotamentoItems items).filter (isValidTargetItem lch)) with
    | cons v0 vs =>
      rw [hs] at h
      dsimp only at h
      cases hg : List.filter (fun i => i.Good == some true) (v0 :: vs) with
      | cons g gs =>
        rw [hg] at h
        dsimp only at h
        have hgf : g ∈ List.filter (fun i => i.Good == some true) (v0 :: vs) := by
          rw [hg]; exact List.mem_cons_self g gs
        have hgmem : g ∈ (empacotamentoItems items).filter (isValidTargetItem lch) :=
          mem_sortItemsDesc.mp (by rw [hs]; exact (List.filter_sublist _).subset hgf)
        obtain ⟨hemp, hval⟩ := List.mem_filter.mp hgmem
        obtain ⟨hitems, hempf⟩ := List.mem_filter.mp hemp
        obtain ⟨_, _, w, _, hvn, _, hw1, hw2, _⟩ := isValidTargetItem_facts hval
        injection h with h'
        have hw : w = v := by rw [← itemVal_eq hvn, h']
        subst hw
        exact ⟨g, hitems, hempf, hvn, hw1, hw2⟩
      | nil =>
        rw [hg] at h
        dsimp only at h
        have hv0 : v0 ∈ (empacotamentoItems items).filter (isValidTargetItem lch) :=
          mem_sortItemsDesc.mp (by rw [hs]; exact List.mem_cons_self v0 vs)
        obtain ⟨hemp, hval⟩ := List.mem_filter.mp hv0
        obtain ⟨hitems, hempf⟩ := List.mem_filter.mp hemp
        obtain ⟨_, _, w, _, hvn, _, hw1, hw2, _⟩ := isValidTargetItem_facts hval
        injection h with h'
        have hw : w = v := by rw [← itemVal_eq hvn, h']
        subst hw
        exact ⟨v0, hitems, hempf, hvn, hw1, hw2⟩
    | nil =>
      rw [hs] at h
      dsimp only at h
      obtain ⟨m, hm, hval⟩ := sortItemsDesc_head_val h
      obtain ⟨hemp, hrange⟩ := List.mem_filter.mp hm
      obtain ⟨hitems, hempf⟩ := List.mem_filter.mp hemp
      obtain ⟨w, hvn, _, hw1, hw2⟩ := isInRangeItem_facts hrange
      have hw : w = v := by rw [← itemVal_eq hvn, hval]
      subst hw
      exact ⟨m, hitems, hempf, hvn, hw1, hw2⟩

theorem malhaSelect_facts {items : List JsItem} {lch : Int} {v : ℚ}
    (h : malhaSelect items lch = some v) :
    ∃ i ∈ items, i.Tag = some "MALHA-INT-1MIN" ∧ valNum i = some v ∧
      50000000 ≤ v ∧ v ≤ 80000000 := by
  unfold malhaSelect at h
  dsimp only at h
  obtain ⟨m, hm, hval⟩ := sortItemsDesc_head_val h
  obtain ⟨hbase, hvalid⟩ := List.mem_filter.mp hm
  obtain ⟨hitems, hbasef⟩ := List.mem_filter.mp hbase
  have htag : m.Tag = some "MALHA-INT-1MIN" := by
    simp only [Bool.and_eq_true, beq_iff_eq] at hbasef
    exact hbasef.1.2
  obtain ⟨_, _, w, _, hvn, _, hw1, hw2, _⟩ := isValidTargetItem_facts hvalid
  have hw : w = v := by rw [← itemVal_eq hvn, hval]
  subst hw
  exact ⟨m, hitems, htag, hvn, hw1, hw2⟩

theorem structure7Select_facts {items : List JsItem} {lch : Int} {v : ℚ}
    (h : structure7Select items lch = some v) :
    ∃ i ∈ items, isS7Item i = true ∧ valNum i = some v ∧
      50000000 ≤ v ∧ v ≤ 80000000 := by
  unfold structure7Select at h
  dsimp only at h
  obtain ⟨m, hm, hval⟩ := sortItemsDesc_head_val h
  have hmem : m ∈ items.filter isS7Item := by
    by_cases hcond : (List.filter (fun i =>
        match i.Timestamp with
        | JsTS.valid _ hh => decide (hh ≤ lch)
        | _ => false) (items.filter isS7Item)).isEmpty
    · rw [if_pos hcond] at hm; exact hm
    · rw [if_neg hcond] at hm
      exact (List.filter_sublist _).subset hm
  obtain ⟨hitems, hs7⟩ := List.mem_filter.mp hmem
  obtain ⟨t, w, _, _, hvn, hw1, hw2⟩ := isS7Item_facts hs7
  have hw : w = v := by rw [← itemVal_eq hvn, hval]
  subst hw
  exact ⟨m, hitems, hs7, hvn, hw1, hw2⟩

/-- Every value returned by the Items extraction comes from an item of the
payload whose tag does not contain `previsao`, with the value in range. -/
theorem extract_source_facts {items : List JsItem} {lch : Int} {v : ℚ}
    (h : extractEmpacotamentoFromJson items lch = some v) :
    ∃ i ∈ items, (∃ t, i.Tag = some t ∧ containsLower t "previsao" = false) ∧
      valNum i = some v ∧ 50000000 ≤ v ∧ v ≤ 80000000 := by
  unfold extractEmpacotamentoFromJson at h
  cases h1 : itemsTargetSelect items lch with
  | some w =>
    rw [h1] at h
    injection h with h'
    subst h'
    obtain ⟨i, hmem, hemp, hvn, hw1, hw2⟩ := itemsTargetSelect_facts h1
    obtain ⟨t, htag, hcls⟩ := isEmpacotamentoItem_facts hemp
    exact ⟨i, hmem, ⟨t, htag, classifyTag_actual_no_previsao hcls⟩, hvn, hw1, hw2⟩
  | none =>
    rw [h1] at h
    cases h2 : malhaSelect items lch with
    | some w =>
      rw [h2] at h
      injection h with h'
      subst h'
      obtain ⟨i, hmem, htag, hvn, hw1, hw2⟩ := malhaSelect_facts h2
      exact ⟨i, hmem, ⟨"MALHA-INT-1MIN", htag, by decide⟩, hvn, hw1, hw2⟩
    | none =>
      rw [h2] at h
      obtain ⟨i, hmem, hs7, hvn, hw1, hw2⟩ := structure7Select_facts h
      obtain ⟨t, w, htag, hprev, hvn', _, _⟩ := isS7Item_facts hs7
      exact ⟨i, hmem, ⟨t, htag, hprev⟩, hvn, hw1, hw2⟩

/-! ### Claim theorems -/

/-- C6: for every current time, `getLastCompleteHour` returns the current hour
when the minute is 0 and the current hour minus 1 otherwise; in particular, at
hour 0 with minute not 0 it returns -1 (no wrap to 23). -/
theorem lastCompleteHour_claim (h m : Int) :
    (m = 0 → getLastCompleteHour h m = h) ∧
    (m ≠ 0 → getLastCompleteHour h m = h - 1) ∧
    (h = 0 → m ≠ 0 → getLastCompleteHour h m = -1) := by
  refine ⟨fun hm => ?_, fun hm => ?_, fun hh hm => ?_⟩
  · simp [getLastCompleteHour, hm]
  · simp [getLastCompleteHour, hm]
  · subst hh
    simp [getLastCompleteHour, hm]

theorem lastCompleteHour_claim_witness :
    getLastCompleteHour 15 0 = 15 ∧ getLastCompleteHour 15 5 = 14 ∧
      getLastCompleteHour 0 15 = -1 :=
  ⟨(lastCompleteHour_claim 15 0).1 rfl,
   (lastCompleteHour_claim 15 5).2.1 (by decide),
   (lastCompleteHour_claim 0 15).2.2 rfl (by decide)⟩

/-- C2 counterexample: the claim requires any tag containing "estimativa" (in
any letter case) to be classified Forecast, but the classifier implemented by
the Items filter checks only "previsao", so "ESTIMATIVA-EMPACOTAMENTO" is
classified Actual, not Forecast. -/
theorem classifyTag_estimativa_counterexample :
    classifyTag "ESTIMATIVA-EMPACOTAMENTO" = .actual ∧
    ¬ classifyTag "ESTIMATIVA-EMPACOTAMENTO" = .forecast :=
  ⟨by decide, by decide⟩

/-- C2 (amended): in the JSON Items path, classification is case-insensitive
substring match with "previsao" (only) marking the forecast series: a tag
containing "previsao" is Forecast, otherwise a tag containing "empacotamento"
is Actual, and any other tag is Unknown — so "EMPACOTAMENTO-TAG-1" is Actual,
"PREVISAO-EMPACOTAMENTO" is Forecast, "RANDOM-TAG" is Unknown, and
"ESTIMATIVA-EMPACOTAMENTO" is Actual ("estimativa" is not a forecast marker
there).  The CSV path instead selects rows by exact equality of the label with
"Empacotamento", so a CSV row labelled "EMPACOTAMENTO-TAG-1" is dropped. -/
theorem classifyTag_claim :
    (∀ t : String,
      (classifyTag t = .forecast ↔ containsLower t "previsao" = true) ∧
      (classifyTag t = .actual ↔
        (containsLower t "previsao" = false ∧ containsLower t "empacotamento" = true)) ∧
      (classifyTag t = .unknown ↔
        (containsLower t "previsao" = false ∧ containsLower t "empacotamento" = false))) ∧
    classifyTag "EMPACOTAMENTO-TAG-1" = .actual ∧
    classifyTag "PREVISAO-EMPACOTAMENTO" = .forecast ∧
    classifyTag "RANDOM-TAG" = .unknown ∧
    classifyTag "ESTIMATIVA-EMPACOTAMENTO" = .actual ∧
    csvLineToRow "EMPACOTAMENTO-TAG-1,\"06/12/2025, 14:00:00\",66500000".data = none ∧
    (csvLineToRow "Empacotamento,\"06/12/2025, 14:00:00\",66500000".data).isSome = true :=
  ⟨classifyTag_cases, by decide, by decide, by decide, by decide, by decide, by decide⟩

/-- C9: for thresholds with criticoPut > alertaPut > alertaCall > criticoCall,
`assessCondition` assigns exactly one of the five statuses — the five bands are
exhaustive and mutually exclusive — with severities critical, warning, neutral,
warning, critical respectively, and `currentValue` equals the input value. -/
theorem assessCondition_claim (t : Thresholds) (v : ℚ)
    (h1 : t.criticoPut > t.alertaPut) (h2 : t.alertaPut > t.alertaCall)
    (h3 : t.alertaCall > t.criticoCall) :
    (assessCondition v t).currentValue = v ∧
    -- the five bands cover every value
    (t.criticoPut ≤ v ∨ (t.alertaPut ≤ v ∧ v < t.criticoPut) ∨
      (t.alertaCall < v ∧ v < t.alertaPut) ∨
      (t.criticoCall ≤ v ∧ v ≤ t.alertaCall) ∨ v < t.criticoCall) ∧
    -- the five bands are pairwise exclusive
    (¬(t.criticoPut ≤ v ∧ (t.alertaPut ≤ v ∧ v < t.criticoPut)) ∧
     ¬(t.criticoPut ≤ v ∧ (t.alertaCall < v ∧ v < t.alertaPut)) ∧
     ¬(t.criticoPut ≤ v ∧ (t.criticoCall ≤ v ∧ v ≤ t.alertaCall)) ∧
     ¬(t.criticoPut ≤ v ∧ v < t.criticoCall) ∧
     ¬((t.alertaPut ≤ v ∧ v < t.criticoPut) ∧ (t.alertaCall < v ∧ v < t.alertaPut)) ∧
     ¬((t.alertaPut ≤ v ∧ v < t.criticoPut) ∧ (t.criticoCall ≤ v ∧ v ≤ t.alertaCall)) ∧
     ¬((t.alertaPut ≤ v ∧ v < t.criticoPut) ∧ v < t.criticoCall) ∧
     ¬((t.alertaCall < v ∧ v < t.alertaPut) ∧ (t.criticoCall ≤ v ∧ v ≤ t.alertaCall)) ∧
     ¬((t.alertaCall < v ∧ v < t.alertaPut) ∧ v < t.criticoCall) ∧
     ¬((t.criticoCall ≤ v ∧ v ≤ t.alertaCall) ∧ v < t.criticoCall)) ∧
    -- on each band the assessment is the stated status with the stated severity
    (t.criticoPut ≤ v → assessCondition v t = ⟨"Crítico PUT", "critical", v⟩) ∧
    (t.alertaPut ≤ v ∧ v < t.criticoPut →
      assessCondition v t = ⟨"Alerta PUT", "warning", v⟩) ∧
    (t.alertaCall < v ∧ v < t.alertaPut →
      assessCondition v t = ⟨"Neutro", "neutral", v⟩) ∧
    (t.criticoCall ≤ v ∧ v ≤ t.alertaCall →
      assessCondition v t = ⟨"Alerta CALL", "warning", v⟩) ∧
    (v < t.criticoCall → assessCondition v t = ⟨"Crítico CALL", "critical", v⟩) := by
  refine ⟨?_, ?_, ?_, ?_, ?_, ?_, ?_, ?_⟩
  · unfold assessCondition
    split_ifs <;> rfl
  · rcases le_or_lt t.criticoPut v with hA | hA
    · exact Or.inl hA
    rcases le_or_lt t.alertaPut v with hB | hB
    · exact Or.inr (Or.inl ⟨hB, hA⟩)
    rcases le_or_lt v t.alertaCall with hC | hC
    · rcases le_or_lt t.criticoCall v with hD | hD
      · exact Or.inr (Or.inr (Or.inr (Or.inl ⟨hD, hC⟩)))
      · exact Or.inr (Or.inr (Or.inr (Or.inr hD)))
    · exact Or.inr (Or.inr (Or.inl ⟨hC, hB⟩))
  · refine ⟨?_, ?_, ?_, ?_, ?_, ?_, ?_, ?_, ?_, ?_⟩ <;> rintro ⟨x, y⟩ <;>
      (try obtain ⟨x1, x2⟩ := x) <;> (try obtain ⟨y1, y2⟩ := y) <;> linarith
  · intro hb
    unfold assessCondition
    rw [if_pos hb]
  · rintro ⟨hb1, hb2⟩
    unfold assessCondition
    rw [if_neg (by exact fun hx => absurd hx (not_le.mpr hb2)), if_pos hb1]
  · rintro ⟨hb1, hb2⟩
    unfold assessCondition
    rw [if_neg (by intro hx; exact absurd hx (not_le.mpr (by linarith))),
      if_neg (by intro hx; exact absurd hx (not_le.mpr hb2)), if_pos ⟨hb1, hb2⟩]
  · rintro ⟨hb1, hb2⟩
    unfold assessCondition
    rw [if_neg (by intro hx; exact absurd hx (not_le.mpr (by linarith))),
      if_neg (by intro hx; exact absurd hx (not_le.mpr (by linarith))),
      if_neg (by rintro ⟨hx, _⟩; linarith), if_pos ⟨hb1, hb2⟩]
  · intro hb
    unfold assessCondition
    rw [if_neg (by intro hx; exact absurd hx (not_le.mpr (by linarith))),
      if_neg (by intro hx; exact absurd hx (not_le.mpr (by linarith))),
      if_neg (by rintro ⟨hx, _⟩; linarith), if_neg (by rintro ⟨hx, _⟩; linarith)]

theorem assessCondition_claim_witness :
    (assessCondition 67000000 ⟨70500000, 68500000, 66500000, 64000000⟩).currentValue
        = 67000000 ∧
    assessCondition 67000000 ⟨70500000, 68500000, 66500000, 64000000⟩
        = ⟨"Neutro", "neutral", 67000000⟩ :=
  have h := assessCondition_claim ⟨70500000, 68500000, 66500000, 64000000⟩ 67000000
    (by norm_num) (by norm_num) (by norm_num)
  ⟨h.1, h.2.2.2.2.2.1 ⟨by norm_num, by norm_num⟩⟩

/-- C3: for every candidate list containing at least one row at or before the
target hour, selection returns the value of a timestamp-greatest such row
(filter, sort by timestamp descending, take the first); in particular scenario
A (now 15:05, targetHour 14) selects 66500000 and scenario B (now 15:00,
targetHour 15) selects 67800000 on the two-row Empacotamento table. -/
theorem csv_selection_claim :
    (∀ (rows : List CsvRow) (lch : Int),
      (∃ r ∈ rows, (r.hour : Int) ≤ lch) →
      ∃ r ∈ rows, (r.hour : Int) ≤ lch ∧ selectFromRows rows lch = .ok r.value ∧
        ∀ q ∈ rows, (q.hour : Int) ≤ lch → q.date ≤ r.date) ∧
    parseCsvAndExtractValue
      "Informação,Data,Valor\nEmpacotamento,\"06/12/2025, 14:00:00\",66500000\nEmpacotamento,\"06/12/2025, 15:00:00\",67800000"
      (getLastCompleteHour 15 5) = .ok 66500000 ∧
    parseCsvAndExtractValue
      "Informação,Data,Valor\nEmpacotamento,\"06/12/2025, 14:00:00\",66500000\nEmpacotamento,\"06/12/2025, 15:00:00\",67800000"
      (getLastCompleteHour 15 0) = .ok 67800000 := by
  refine ⟨?_, by decide, by decide⟩
  intro rows lch hex
  cases hs : sortRowsDesc (rows.filter fun r => decide ((r.hour : Int) ≤ lch)) with
  | nil =>
    exfalso
    obtain ⟨r, hr, hh⟩ := hex
    have hmem : r ∈ rows.filter fun r => decide ((r.hour : Int) ≤ lch) :=
      List.mem_filter.mpr ⟨hr, decide_eq_true hh⟩
    have hmem' : r ∈ sortRowsDesc (rows.filter fun r => decide ((r.hour : Int) ≤ lch)) :=
      (List.perm_insertionSort rowRel _).mem_iff.mpr hmem
    rw [hs] at hmem'
    cases hmem'
  | cons r rs =>
    have hs' := hs
    unfold sortRowsDesc at hs'
    obtain ⟨hmem, hmax⟩ := head_of_insertionSort rowRel hs'
    obtain ⟨hrows, hhour⟩ := List.mem_filter.mp hmem
    refine ⟨r, hrows, of_decide_eq_true hhour, ?_, ?_⟩
    · unfold selectFromRows
      rw [hs]
    · intro q hq hqh
      exact hmax q (List.mem_filter.mpr ⟨hq, decide_eq_true hqh⟩)

theorem csv_selection_claim_witness :
    ∃ r ∈ [(⟨1765029600, 14, 66500000⟩ : CsvRow), ⟨1765033200, 15, 67800000⟩],
      (r.hour : Int) ≤ 14 ∧
      selectFromRows [⟨1765029600, 14, 66500000⟩, ⟨1765033200, 15, 67800000⟩] 14
        = .ok r.value ∧
      ∀ q ∈ [(⟨1765029600, 14, 66500000⟩ : CsvRow), ⟨1765033200, 15, 67800000⟩],
        (q.hour : Int) ≤ 14 → q.date ≤ r.date :=
  csv_selection_claim.1 [⟨1765029600, 14, 66500000⟩, ⟨1765033200, 15, 67800000⟩] 14
    ⟨⟨1765029600, 14, 66500000⟩, by decide, by decide⟩

/-- C4: when no row is at or before the target hour but rows exist, selection
succeeds with the value of a timestamp-greatest row overall, surfaced as the
fallback outcome. -/
theorem csv_fallback_claim (rows : List CsvRow) (lch : Int)
    (hne : rows ≠ []) (hall : ∀ r ∈ rows, ¬ (r.hour : Int) ≤ lch) :
    ∃ r ∈ rows, selectFromRows rows lch = .okFallback r.value ∧
      ∀ q ∈ rows, q.date ≤ r.date := by
  have hfe : rows.filter (fun r => decide ((r.hour : Int) ≤ lch)) = [] := by
    rcases hq : rows.filter (fun r => decide ((r.hour : Int) ≤ lch)) with _ | ⟨x, xs⟩
    · exact hq
    · exfalso
      have hx : x ∈ rows.filter (fun r => decide ((r.hour : Int) ≤ lch)) := by
        rw [hq]; exact List.mem_cons_self x xs
      obtain ⟨hxr, hxp⟩ := List.mem_filter.mp hx
      exact hall x hxr (of_decide_eq_true hxp)
  cases hs : sortRowsDesc rows with
  | nil =>
    exfalso
    have hp := List.perm_insertionSort rowRel rows
    unfold sortRowsDesc at hs
    rw [hs] at hp
    exact hne (List.eq_nil_of_length_eq_zero (hp.length_eq.symm.trans rfl))
  | cons m ms =>
    have hsel : selectFromRows rows lch = .okFallback m.value := by
      unfold selectFromRows
      rw [hfe, hs]
      rfl
    have hs' := hs
    unfold sortRowsDesc at hs'
    obtain ⟨hmem, hmax⟩ := head_of_insertionSort rowRel hs'
    exact ⟨m, hmem, hsel, fun q hq => hmax q hq⟩

theorem csv_fallback_claim_witness :
    selectFromRows [(⟨1765051200, 20, 70000000⟩ : CsvRow)] 10
      = .okFallback 70000000 := by
  obtain ⟨r, hr, hsel, _⟩ := csv_fallback_claim [⟨1765051200, 20, 70000000⟩] 10
    (by decide) (by decide)
  have hre : r = ⟨1765051200, 20, 70000000⟩ := by simpa using hr
  rw [hre] at hsel
  exact hsel

/-- When the parsed row list is non-empty, selection produces a value (one of
the two success outcomes), never an error. -/
theorem selectFromRows_of_ne_nil {rows : List CsvRow} (lch : Int) (hne : rows ≠ []) :
    ∃ v, selectFromRows rows lch = .ok v ∨ selectFromRows rows lch = .okFallback v := by
  cases h1 : sortRowsDesc (rows.filter fun r => decide ((r.hour : Int) ≤ lch)) with
  | cons r rs =>
    refine ⟨r.value, Or.inl ?_⟩
    unfold selectFromRows
    rw [h1]
  | nil =>
    cases h2 : sortRowsDesc rows with
    | cons m ms =>
      refine ⟨m.value, Or.inr ?_⟩
      unfold selectFromRows
      rw [h1, h2]
    | nil =>
      exfalso
      have hp := List.perm_insertionSort rowRel rows
      unfold sortRowsDesc at h2
      rw [h2] at hp
      exact hne (List.eq_nil_of_length_eq_zero (hp.length_eq.symm.trans rfl))

/-- C5 counterexample: a payload whose single data row fails structural parsing
(unparsable date) yields zero usable rows, yet the extraction raises the
NoActualSeriesFound error, not the ParseFailure error the claim requires for
zero usable rows. -/
theorem csv_error_taxonomy_counterexample :
    parseCsvAndExtractValue "Informação,Data,Valor\nEmpacotamento,notadate,123" 14
      = .errNoEmpacotamento ∧
    ¬ parseCsvAndExtractValue "Informação,Data,Valor\nEmpacotamento,notadate,123" 14
      = .errEmptyCsv ∧
    csvRows "Informação,Data,Valor\nEmpacotamento,notadate,123" = [] :=
  ⟨by decide, by decide, by decide⟩

/-- C5 (amended): CSV extraction raises exactly two kinds of fatal errors: the
ParseFailure error if and only if the trimmed payload has fewer than two lines,
and the NoActualSeriesFound error if and only if it has at least two lines but
zero parsed Empacotamento rows (whether the rows belong to other series or fail
structural parsing — structurally invalid rows are silently skipped and
excluded from all candidate sets, so an all-malformed payload raises
NoActualSeriesFound rather than ParseFailure); otherwise extraction succeeds
with a value. -/
theorem csv_error_taxonomy_claim (content : String) (lch : Int) :
    (parseCsvAndExtractValue content lch = .errEmptyCsv ↔
      (csvLines content).length < 2) ∧
    (parseCsvAndExtractValue content lch = .errNoEmpacotamento ↔
      (2 ≤ (csvLines content).length ∧ csvRows content = [])) ∧
    (2 ≤ (csvLines content).length → csvRows content ≠ [] →
      ∃ v, parseCsvAndExtractValue content lch = .ok v ∨
        parseCsvAndExtractValue content lch = .okFallback v) := by
  by_cases hlen : (csvLines content).length < 2
  · have hres : parseCsvAndExtractValue content lch = .errEmptyCsv := by
      unfold parseCsvAndExtractValue
      rw [if_pos hlen]
    refine ⟨⟨fun _ => hlen, fun _ => hres⟩, ⟨fun h => ?_, fun hc => ?_⟩, fun h2 _ => ?_⟩
    · rw [hres] at h
      cases h
    · exact absurd hc.1 (not_le.mpr hlen)
    · exact absurd h2 (not_le.mpr hlen)
  · have hlen2 : 2 ≤ (csvLines content).length := not_lt.mp hlen
    by_cases hrows : (csvRows content).isEmpty
    · have hre : csvRows content = [] := by
        cases h : csvRows content with
        | nil => rfl
        | cons x xs => rw [h] at hrows; cases hrows
      have hres : parseCsvAndExtractValue content lch = .errNoEmpacotamento := by
        unfold parseCsvAndExtractValue
        rw [if_neg hlen, if_pos hrows]
      refine ⟨⟨fun h => ?_, fun hl => absurd hl hlen⟩,
        ⟨fun _ => ⟨hlen2, hre⟩, fun _ => hres⟩, fun _ hne => absurd hre hne⟩
      rw [hres] at h
      cases h
    · have hre : csvRows content ≠ [] := by
        intro he
        rw [he] at hrows
        exact hrows rfl
      have hres : parseCsvAndExtractValue content lch
          = selectFromRows (csvRows content) lch := by
        unfold parseCsvAndExtractValue
        rw [if_neg hlen, if_neg hrows]
      obtain ⟨v, hv⟩ := selectFromRows_of_ne_nil lch hre
      refine ⟨⟨fun h => ?_, fun hl => absurd hl hlen⟩,
        ⟨fun h => ?_, fun hc => absurd hc.2 hre⟩,
        fun _ _ => ⟨v, by rw [hres]; exact hv⟩⟩
      · rw [hres] at h
        rcases hv with h' | h' <;> rw [h'] at h <;> cases h
      · rw [hres] at h
        rcases hv with h' | h' <;> rw [h'] at h <;> cases h

theorem csv_error_taxonomy_claim_witness :
    2 ≤ (csvLines "Informação,Data,Valor\nEmpacotamento,\"06/12/2025, 10:00:00\",60000000").length ∧
    csvRows "Informação,Data,Valor\nEmpacotamento,\"06/12/2025, 10:00:00\",60000000" ≠ [] ∧
    ∃ v, parseCsvAndExtractValue
        "Informação,Data,Valor\nEmpacotamento,\"06/12/2025, 10:00:00\",60000000" 14 = .ok v ∨
      parseCsvAndExtractValue
        "Informação,Data,Valor\nEmpacotamento,\"06/12/2025, 10:00:00\",60000000" 14 = .okFallback v :=
  ⟨by decide, by decide,
    (csv_error_taxonomy_claim
      "Informação,Data,Valor\nEmpacotamento,\"06/12/2025, 10:00:00\",60000000" 14).2.2
      (by decide) (by decide)⟩

/-- C8 counterexample: a CSV value field written `66.500.000` is parsed by the
code to 66.5 (= 133/2), not to 66500000: there is no locale-aware
thousands-separator handling in the CSV path. -/
theorem csv_thousands_counterexample :
    parseCsvAndExtractValue
      "Informação,Data,Valor\nEmpacotamento,\"06/12/2025, 14:00:00\",66.500.000" 14
      = .ok (mkRat 133 2) ∧
    (mkRat 133 2 : ℚ) ≠ 66500000 :=
  ⟨by decide, by decide⟩

/-- C8 (amended): CSV numeric parsing is plain `parseFloat` — the first dot is
a decimal point and parsing stops at the second dot, so `66.500.000` parses to
66.5, a plain integer like `66500000` parses to itself, and a non-numeric field
parses to NaN and the row is dropped. -/
theorem csv_parseFloat_claim :
    parseFloatQ "66.500.000".data = some (mkRat 133 2) ∧
    (mkRat 133 2 : ℚ) = 66.5 ∧
    parseFloatQ "66500000".data = some 66500000 ∧
    parseFloatQ "abc".data = none :=
  ⟨by decide, by rw [Rat.mkRat_eq_div]; norm_num, by decide, by decide⟩

/-- C1 counterexample: a payload whose only item carries the tag
`MALHA-INT-1MIN` — which the classification leaves Unknown — still yields that
item's value, through the MALHA fallback branch: Unknown records can be the
source of the returned value. -/
theorem extractJson_unknown_source_counterexample :
    extractEmpacotamentoFromJson
      [{ Tag := some "MALHA-INT-1MIN", Timestamp := .valid 1765014000 10,
         Value := some (some 60000000), Good := some true }] 10 = some 60000000 ∧
    classifyTag "MALHA-INT-1MIN" = .unknown :=
  ⟨by decide, by decide⟩

/-- C1 (amended): every value returned by the Items extraction is the value of
a record of the payload whose tag does not contain "previsao"
(case-insensitively) — records tagged as the Previsao forecast series are never
the source of the returned value — but records of Unknown series kind (the
MALHA-INT-1MIN fallback and, in the structure-7 fallback, any non-previsao
tag) and "estimativa"-tagged records can be the source. -/
theorem extractJson_no_previsao_source_claim (items : List JsItem) (lch : Int) (v : ℚ)
    (h : extractEmpacotamentoFromJson items lch = some v) :
    ∃ i ∈ items, ∃ t, i.Tag = some t ∧ i.Value = some (some v) ∧
      containsLower t "previsao" = false := by
  obtain ⟨i, hmem, ⟨t, htag, hprev⟩, hvn, _, _⟩ := extract_source_facts h
  exact ⟨i, hmem, t, htag, valNum_eq_some hvn, hprev⟩

theorem extractJson_no_previsao_source_claim_witness :
    ∃ i ∈ [({ Tag := some "EMPACOTAMENTO-TAG-1", Timestamp := .valid 1765029600 14,
              Value := some (some 66500000), Good := some true } : JsItem)],
      ∃ t, i.Tag = some t ∧ i.Value = some (some (66500000 : ℚ)) ∧
        containsLower t "previsao" = false :=
  extractJson_no_previsao_source_claim
    [{ Tag := some "EMPACOTAMENTO-TAG-1", Timestamp := .valid 1765029600 14,
       Value := some (some 66500000), Good := some true }] 14 66500000 (by decide)

/-- C7 counterexample: with two in-range Empacotamento candidates at or before
the target hour — one at timestamp 2000 with `Good` false and one at timestamp
1000 with `Good` true — the selection returns the earlier good item's value
67000000 rather than the strictly later item's 66000000: the quality flag is
preferred over a strictly later timestamp, not used only as a tie-break. -/
theorem items_quality_counterexample :
    extractEmpacotamentoFromJson
      [{ Tag := some "EMPACOTAMENTO-TAG-1", Timestamp := .valid 2000 14,
         Value := some (some 66000000), Good := some false },
       { Tag := some "EMPACOTAMENTO-TAG-1", Timestamp := .valid 1000 13,
         Value := some (some 67000000), Good := some true }] 14 = some 67000000 ∧
    ¬ extractEmpacotamentoFromJson
      [{ Tag := some "EMPACOTAMENTO-TAG-1", Timestamp := .valid 2000 14,
         Value := some (some 66000000), Good := some false },
       { Tag := some "EMPACOTAMENTO-TAG-1", Timestamp := .valid 1000 13,
         Value := some (some 67000000), Good := some true }] 14 = some 66000000 :=
  ⟨by decide, by decide⟩

/-- C7 (amended): in the Items target-hour selection the quality flag overrides
timestamp order: when the target-hour candidate list is non-empty, the
selection returns the value of a timestamp-greatest `Good === true` candidate
whenever any candidate is Good — even if a strictly later non-Good candidate
exists — and only when no candidate is Good does it return the value of a
timestamp-greatest candidate overall. -/
theorem items_quality_preference_claim (items : List JsItem) (lch : Int)
    (hne : validCandidates items lch ≠ []) :
    (∃ g ∈ validCandidates items lch, g.Good = some true ∧
        extractEmpacotamentoFromJson items lch = some (itemVal g) ∧
        ∀ j ∈ validCandidates items lch, j.Good = some true → itemRel g j) ∨
    ((∀ j ∈ validCandidates items lch, ¬ j.Good = some true) ∧
      ∃ m ∈ validCandidates items lch,
        extractEmpacotamentoFromJson items lch = some (itemVal m) ∧
        ∀ j ∈ validCandidates items lch, itemRel m j) := by
  have hempne : (empacotamentoItems items).isEmpty = false := by
    cases hE : empacotamentoItems items with
    | nil =>
      exfalso
      apply hne
      unfold validCandidates
      rw [hE]
      rfl
    | cons x xs => rfl
  cases hs : sortItemsDesc ((empacotamentoItems items).filter (isValidTargetItem lch)) with
  | nil =>
    exfalso
    apply hne
    unfold validCandidates
    have hp := List.perm_insertionSort itemRel
      ((empacotamentoItems items).filter (isValidTargetItem lch))
    unfold sortItemsDesc at hs
    rw [hs] at hp
    exact List.eq_nil_of_length_eq_zero (hp.length_eq.symm.trans rfl)
  | cons v0 vs =>
    cases hg : List.filter (fun i => i.Good == some true) (v0 :: vs) with
    | cons g gs =>
      left
      have hts : itemsTargetSelect items lch = some (itemVal g) := by
        unfold itemsTargetSelect
        simp only [hempne, Bool.false_eq_true, if_false]
        rw [hs]
        dsimp only
        rw [hg]
      have hres : extractEmpacotamentoFromJson items lch = some (itemVal g) := by
        unfold extractEmpacotamentoFromJson
        rw [hts]
      have hcomb : (List.insertionSort itemRel
          ((empacotamentoItems items).filter (isValidTargetItem lch))).filter
          (fun i => i.Good == some true) = g :: gs := by
        unfold sortItemsDesc at hs
        rw [hs]
        exact hg
      obtain ⟨hgl, hgp, hgmax⟩ := head_of_filter_insertionSort itemRel
        (fun i => i.Good == some true) hcomb
      refine ⟨g, ?_, ?_, hres, ?_⟩
      · unfold validCandidates
        exact hgl
      · exact eq_of_beq hgp
      · intro j hj hjg
        apply hgmax j
        · unfold validCandidates at hj
          exact hj
        · exact beq_iff_eq.mpr hjg
    | nil =>
      right
      constructor
      · intro j hj hjg
        have hjs : j ∈ v0 :: vs := by
          rw [← hs]
          apply mem_sortItemsDesc.mpr
          unfold validCandidates at hj
          exact hj
        have : j ∈ List.filter (fun i => i.Good == some true) (v0 :: vs) :=
          List.mem_filter.mpr ⟨hjs, beq_iff_eq.mpr hjg⟩
        rw [hg] at this
        cases this
      · have hts : itemsTargetSelect items lch = some (itemVal v0) := by
          unfold itemsTargetSelect
          simp only [hempne, Bool.false_eq_true, if_false]
          rw [hs]
          dsimp only
          rw [hg]
        have hres : extractEmpacotamentoFromJson items lch = some (itemVal v0) := by
          unfold extractEmpacotamentoFromJson
          rw [hts]
        have hs' := hs
        unfold sortItemsDesc at hs'
        obtain ⟨hmem, hmax⟩ := head_of_insertionSort itemRel hs'
        refine ⟨v0, ?_, hres, ?_⟩
        · unfold validCandidates
          exact hmem
        · intro j hj
          apply hmax j
          unfold validCandidates at hj
          exact hj

theorem items_quality_preference_claim_witness :
    extractEmpacotamentoFromJson
      [{ Tag := some "EMPACOTAMENTO-TAG-1", Timestamp := .valid 2000 14,
         Value := some (some 66000000), Good := some false },
       { Tag := some "EMPACOTAMENTO-TAG-2", Timestamp := .valid 1000 13,
         Value := some (some 67000000), Good := some true }] 14 = some 67000000 := by
  rcases items_quality_preference_claim
      [{ Tag := some "EMPACOTAMENTO-TAG-1", Timestamp := .valid 2000 14,
         Value := some (some 66000000), Good := some false },
       { Tag := some "EMPACOTAMENTO-TAG-2", Timestamp := .valid 1000 13,
         Value := some (some 67000000), Good := some true }] 14 (by decide) with
    ⟨g, hg, hgood, hres, _⟩ | ⟨hnog, _⟩
  · have hvc : validCandidates
        [{ Tag := some "EMPACOTAMENTO-TAG-1", Timestamp := .valid 2000 14,
           Value := some (some 66000000), Good := some false },
         { Tag := some "EMPACOTAMENTO-TAG-2", Timestamp := .valid 1000 13,
           Value := some (some 67000000), Good := some true }] 14
        = [{ Tag := some "EMPACOTAMENTO-TAG-1", Timestamp := .valid 2000 14,
             Value := some (some 66000000), Good := some false },
           { Tag := some "EMPACOTAMENTO-TAG-2", Timestamp := .valid 1000 13,
             Value := some (some 67000000), Good := some true }] := by decide
    rw [hvc] at hg
    rcases List.mem_cons.mp hg with rfl | hg2
    · exact absurd hgood (by decide)
    · rcases List.mem_cons.mp hg2 with rfl | hg3
      · exact hres
      · cases hg3
  · exfalso
    refine hnog { Tag := some "EMPACOTAMENTO-TAG-2", Timestamp := .valid 1000 13,
                  Value := some (some 67000000), Good := some true } ?_ rfl
    unfold validCandidates empacotamentoItems
    decide

/-- The `empacotamentoItems.length > 0` gate of the Items branch is redundant:
with no Empacotamento candidates both inner filters are empty and the branch
falls through anyway, so the target selection is a function of the two
filtered candidate lists alone. -/
theorem itemsTargetSelect_eq_ungated (l : List JsItem) (lch : Int) :
    itemsTargetSelect l lch =
      (match sortItemsDesc ((empacotamentoItems l).filter (isValidTargetItem lch)) with
       | v :: vs =>
         (match List.filter (fun i => i.Good == some true) (v :: vs) with
          | g :: _ => some (itemVal g)
          | [] => some (itemVal v))
       | [] =>
         (match sortItemsDesc ((empacotamentoItems l).filter isInRangeItem) with
          | m :: _ => some (itemVal m)
          | [] => none)) := by
  unfold itemsTargetSelect
  by_cases he : (empacotamentoItems l).isEmpty = true
  · have hnil : empacotamentoItems l = [] := by
      cases hE : empacotamentoItems l with
      | nil => rfl
      | cons x xs => rw [hE] at he; cases he
    rw [hnil]
    rfl
  · simp only [he, Bool.false_eq_true, if_false]

theorem filter_append_middle_neg {p : JsItem → Bool} (pre post : List JsItem)
    {bad : JsItem} (h : p bad = false) :
    (pre ++ bad :: post).filter p = (pre ++ post).filter p := by
  simp [List.filter_append, List.filter_cons, h]

/-- C10: every value returned by the Items extraction lies in the closed range
[50000000, 80000000], and an Empacotamento-tagged record whose numeric value
falls outside this range is excluded from the target-hour selection, the
most-recent fallback, and both later fallbacks — removing it from the payload
does not change the result at all. -/
theorem items_range_claim :
    (∀ (items : List JsItem) (lch : Int) (v : ℚ),
      extractEmpacotamentoFromJson items lch = some v →
        50000000 ≤ v ∧ v ≤ 80000000) ∧
    (∀ (pre post : List JsItem) (lch : Int) (bad : JsItem) (t : String) (w : ℚ),
      bad.Tag = some t → containsLower t "empacotamento" = true →
      containsLower t "previsao" = false → bad.Value = some (some w) →
      (w < 50000000 ∨ 80000000 < w) →
      extractEmpacotamentoFromJson (pre ++ bad :: post) lch
        = extractEmpacotamentoFromJson (pre ++ post) lch) := by
  constructor
  · intro items lch v h
    obtain ⟨_, _, _, _, hw1, hw2⟩ := extract_source_facts h
    exact ⟨hw1, hw2⟩
  · intro pre post lch bad t w hbadT hempaco hprev hbadV hw
    have hvn : valNum bad = some w := by
      unfold valNum
      rw [hbadV]
    have hrangefalse :
        (decide ((50000000 : ℚ) ≤ w) && decide (w ≤ (80000000 : ℚ))) = false := by
      rcases hw with hw | hw
      · have hd : decide ((50000000 : ℚ) ≤ w) = false := decide_eq_false (not_le.mpr hw)
        rw [hd]
        rfl
      · have hd : decide (w ≤ (80000000 : ℚ)) = false := decide_eq_false (not_le.mpr hw)
        rw [hd]
        simp
    have hvfalse : isValidTargetItem lch bad = false := by
      unfold isValidTargetItem
      cases hT : bad.Timestamp with
      | missing => rfl
      | invalid => rfl
      | valid ms hr =>
        rw [hvn]
        rcases hw with hw | hw
        · have hd : decide ((50000000 : ℚ) ≤ w) = false := decide_eq_false (not_le.mpr hw)
          simp [hd]
        · have hd : decide (w ≤ (80000000 : ℚ)) = false := decide_eq_false (not_le.mpr hw)
          simp [hd]
    have hrfalse : isInRangeItem bad = false := by
      unfold isInRangeItem
      rw [hvn]
      rcases hw with hw | hw
      · have hd : decide ((50000000 : ℚ) ≤ w) = false := decide_eq_false (not_le.mpr hw)
        simp [hd]
      · have hd : decide (w ≤ (80000000 : ℚ)) = false := decide_eq_false (not_le.mpr hw)
        simp [hd]
    have hs7false : isS7Item bad = false := by
      unfold isS7Item
      rw [hbadT, hvn]
      rcases hw with hw | hw
      · have hd : decide ((50000000 : ℚ) ≤ w) = false := decide_eq_false (not_le.mpr hw)
        simp [hd]
      · have hd : decide (w ≤ (80000000 : ℚ)) = false := decide_eq_false (not_le.mpr hw)
        simp [hd]
    have hmfalse :
        (hasTagTsVal bad && (bad.Tag == some "MALHA-INT-1MIN")
          && (bad.Good == some true)) = false := by
      have htne : (bad.Tag == some "MALHA-INT-1MIN") = false := by
        rw [hbadT]
        apply beq_eq_false_iff_ne.mpr
        intro he
        injection he with he'
        rw [he'] at hempaco
        exact absurd hempaco (by decide)
      simp [htne]
    have hV : (empacotamentoItems (pre ++ bad :: post)).filter (isValidTargetItem lch)
        = (empacotamentoItems (pre ++ post)).filter (isValidTargetItem lch) := by
      unfold empacotamentoItems
      cases hemp : isEmpacotamentoItem bad with
      | false => simp [List.filter_append, List.filter_cons, hemp]
      | true => simp [List.filter_append, List.filter_cons, hemp, hvfalse]
    have hR : (empacotamentoItems (pre ++ bad :: post)).filter isInRangeItem
        = (empacotamentoItems (pre ++ post)).filter isInRangeItem := by
      unfold empacotamentoItems
      cases hemp : isEmpacotamentoItem bad with
      | false => simp [List.filter_append, List.filter_cons, hemp]
      | true => simp [List.filter_append, List.filter_cons, hemp, hrfalse]
    have h1 : itemsTargetSelect (pre ++ bad :: post) lch
        = itemsTargetSelect (pre ++ post) lch := by
      rw [itemsTargetSelect_eq_ungated, itemsTargetSelect_eq_ungated, hV, hR]
    have h2 : malhaSelect (pre ++ bad :: post) lch = malhaSelect (pre ++ post) lch := by
      unfold malhaSelect
      rw [filter_append_middle_neg pre post hmfalse]
    have h3 : structure7Select (pre ++ bad :: post) lch
        = structure7Select (pre ++ post) lch := by
      unfold structure7Select
      rw [filter_append_middle_neg pre post hs7false]
    unfold extractEmpacotamentoFromJson
    rw [h1, h2, h3]

theorem items_range_claim_witness :
    ((50000000 : ℚ) ≤ 60000000 ∧ (60000000 : ℚ) ≤ 80000000) ∧
    extractEmpacotamentoFromJson
      ([] ++ ({ Tag := some "EMPACOTAMENTO-TAG-1", Timestamp := .valid 1765014000 10,
                Value := some (some 90000000), Good := some true } : JsItem) :: []) 14
      = extractEmpacotamentoFromJson ([] ++ []) 14 :=
  ⟨items_range_claim.1
      [{ Tag := some "EMPACOTAMENTO-TAG-1", Timestamp := .valid 1765014000 10,
         Value := some (some 60000000), Good := some true }] 14 60000000 (by decide),
   items_range_claim.2 [] [] 14
      { Tag := some "EMPACOTAMENTO-TAG-1", Timestamp := .valid 1765014000 10,
        Value := some (some 90000000), Good := some true }
      "EMPACOTAMENTO-TAG-1" 90000000 rfl (by decide) (by decide) rfl
      (Or.inr (by norm_num))⟩

end MagoTag

